import Mathlib

/-!
Verification of the SDL3 OpenGL sample (`src/main.cpp`) against its
natural-language specification.

The program is modelled as a shallow embedding: each C++ function that talks
to SDL / OpenGL is translated to a Lean function that returns the trace of
library calls it issues (as a `List GLCall` or `List InitStep`), together
with any state it produces.  Outcomes of external library calls
(`SDL_Init`, `TTF_OpenFont`, ...) are inputs, collected in an environment
record.  Pixel coordinates are modelled by `ℚ` (both platform branches
compute the same float expressions, so any faithful numeric model agrees);
the animated clear colour uses `ℝ` because it is built from `sin`.
-/

namespace SDLSample

/-- Texture handle as in `struct GLTexture`: GL id plus pixel size. -/
structure GLTexture where
  id : Nat
  width : Int
  height : Int
deriving DecidableEq, Repr

/-- Renderer state as in `struct GLRenderer` (the Emscripten-only shader
fields; the `SDL_GLContext` pointer is irrelevant to the claims). -/
structure GLRenderer where
  program : Nat
  vbo : Nat
  uResolutionLoc : Int
  uTextureLoc : Int
  aPosLoc : Int
  aUVLoc : Int
deriving DecidableEq, Repr

/-- One vertex of a textured quad: position `(x, y)` and texture
coordinates `(u, v)` (the `Vertex` struct in `DrawTexture`). -/
structure Vert where
  x : ℚ
  y : ℚ
  u : ℚ
  v : ℚ
deriving DecidableEq, Repr

/-- An OpenGL (or GL-helper) call issued by the program.  Constructors cover
exactly the calls appearing in `InitGL`, `BeginFrame`, `DrawTexture`,
`EndFrame`, `DestroyTexture` for both platform branches. -/
inductive GLCall where
  | viewport (x y w h : Int)
  | matrixModeProjection
  | matrixModeModelview
  | loadIdentity
  | ortho (w h : Int)
  | enableTexture2D
  | enableBlend
  | blendFuncSrcAlpha
  | disableDepthTest
  | clearColorCall (r g b a : ℝ)
  | clearColorBuffer
  | bindTexture (id : Nat)
  | beginTriangles
  | texCoord2f (u v : ℚ)
  | vertex2f (x y : ℚ)
  | endPrim
  | useProgram (p : Nat)
  | activeTexture0
  | bindArrayBuffer (vbo : Nat)
  | bufferData (verts : List Vert)
  | enableVertexAttribArray (loc : Int)
  | vertexAttribPointer (loc : Int)
  | drawArraysTriangles (first count : Int)
  | disableVertexAttribArray (loc : Int)
  | uniform2f (loc : Int) (a b : ℝ)
  | uniform1i (loc : Int) (v : Int)
  | loadGLES2Functions
  | createTexturedQuadProgram
  | getShaderLocations
  | genBuffers
  | createContext
  | makeCurrent
  | setSwapInterval (i : Int)
  | deleteTextures (id : Nat)
  | swapWindow

/-- The six vertices of the quad `(x, y, w, h)`: the `verts[6]` array built
in the Emscripten branch of `DrawTexture` (two triangles). -/
def quadVerts (x y w h : ℚ) : List Vert :=
  [⟨x, y, 0, 0⟩, ⟨x + w, y, 1, 0⟩, ⟨x + w, y + h, 1, 1⟩,
   ⟨x, y, 0, 0⟩, ⟨x + w, y + h, 1, 1⟩, ⟨x, y + h, 0, 1⟩]

/-- Native (desktop GL) branch of `DrawTexture`: immediate-mode calls.
Returns the renderer (which the function never writes) and the call trace.
An id-0 texture returns immediately with no GL call. -/
def DrawTexture (renderer : GLRenderer) (tex : GLTexture) (x y w h : ℚ) :
    GLRenderer × List GLCall :=
  if tex.id = 0 then (renderer, []) else
  (renderer,
   [.bindTexture tex.id,
    .beginTriangles,
    .texCoord2f 0 0, .vertex2f x y,
    .texCoord2f 1 0, .vertex2f (x + w) y,
    .texCoord2f 1 1, .vertex2f (x + w) (y + h),
    .texCoord2f 0 0, .vertex2f x y,
    .texCoord2f 1 1, .vertex2f (x + w) (y + h),
    .texCoord2f 0 1, .vertex2f x (y + h),
    .endPrim])

/-- Emscripten (GLES2/WebGL) branch of `DrawTexture`: shader/VBO calls.
Returns the renderer (never written) and the call trace.  An id-0 texture
returns immediately with no GL call. -/
def DrawTextureEm (renderer : GLRenderer) (tex : GLTexture) (x y w h : ℚ) :
    GLRenderer × List GLCall :=
  if tex.id = 0 then (renderer, []) else
  (renderer,
   [.useProgram renderer.program,
    .activeTexture0,
    .bindTexture tex.id,
    .bindArrayBuffer renderer.vbo,
    .bufferData (quadVerts x y w h),
    .enableVertexAttribArray renderer.aPosLoc,
    .vertexAttribPointer renderer.aPosLoc,
    .enableVertexAttribArray renderer.aUVLoc,
    .vertexAttribPointer renderer.aUVLoc,
    .drawArraysTriangles 0 6,
    .disableVertexAttribArray renderer.aPosLoc,
    .disableVertexAttribArray renderer.aUVLoc])

/-- Native branch of `BeginFrame`: viewport, ortho projection with origin
top-left, then clear with the given colour and alpha fixed at `1.0`. -/
def BeginFrame (w h : Int) (r g b : ℝ) : List GLCall :=
  [.viewport 0 0 w h,
   .matrixModeProjection, .loadIdentity, .ortho w h,
   .matrixModeModelview, .loadIdentity,
   .clearColorCall r g b 1,
   .clearColorBuffer]

/-- Emscripten branch of `BeginFrame`: viewport, bind the quad program, set
`uResolution`, then clear with the given colour and alpha fixed at `1.0`. -/
def BeginFrameEm (renderer : GLRenderer) (w h : Int) (r g b : ℝ) : List GLCall :=
  [.viewport 0 0 w h,
   .useProgram renderer.program,
   .uniform2f renderer.uResolutionLoc (w : ℝ) (h : ℝ),
   .clearColorCall r g b 1,
   .clearColorBuffer]

/-- Model of `EndFrame`: swaps the window. -/
def EndFrame : List GLCall := [.swapWindow]

/-- Model of `DestroyTexture`: deletes the GL texture and zeroes the id, but only
when the id is non-zero. -/
def DestroyTexture (tex : GLTexture) : GLTexture × List GLCall :=
  if tex.id = 0 then (tex, [])
  else ({ tex with id := 0 }, [.deleteTextures tex.id])

/-- Native branch of `InitGL` (successful path): context setup, viewport,
ortho projection, texturing and blending; no shader or VBO call. -/
def InitGLCalls (w h : Int) : List GLCall :=
  [.createContext, .makeCurrent, .setSwapInterval 1,
   .viewport 0 0 w h,
   .matrixModeProjection, .loadIdentity, .ortho w h,
   .matrixModeModelview, .loadIdentity,
   .enableTexture2D,
   .enableBlend, .blendFuncSrcAlpha]

/-- Emscripten branch of `InitGL` (successful path): context setup, GLES2
function loading, blending, shader-program creation, attribute/uniform
lookup, VBO creation, texture unit 0. -/
def InitGLEmCalls (renderer : GLRenderer) (w h : Int) : List GLCall :=
  [.createContext, .makeCurrent, .loadGLES2Functions, .setSwapInterval 1,
   .viewport 0 0 w h,
   .enableBlend, .blendFuncSrcAlpha,
   .createTexturedQuadProgram,
   .useProgram renderer.program,
   .getShaderLocations,
   .genBuffers,
   .activeTexture0,
   .uniform1i renderer.uTextureLoc 0,
   .disableDepthTest]

/-- Calls that belong to the shader-compilation / VBO pipeline (the
Emscripten-only path). -/
def isShaderOrVBOCall : GLCall → Bool
  | .useProgram _ => true
  | .bindArrayBuffer _ => true
  | .bufferData _ => true
  | .enableVertexAttribArray _ => true
  | .vertexAttribPointer _ => true
  | .drawArraysTriangles _ _ => true
  | .disableVertexAttribArray _ => true
  | .uniform2f _ _ _ => true
  | .uniform1i _ _ => true
  | .loadGLES2Functions => true
  | .createTexturedQuadProgram => true
  | .getShaderLocations => true
  | .genBuffers => true
  | _ => false

/-! ### A small abstract GL machine

To speak about "the textured quads a trace draws" we interpret call traces
in a machine that tracks the bound texture, the current texture coordinate,
the vertices of an open immediate-mode primitive, and the contents of the
array buffer; each completed `GL_TRIANGLES` primitive or `glDrawArrays`
call appends one `(texture id, vertices)` record. -/

structure GLMachine where
  boundTex : Nat
  curU : ℚ
  curV : ℚ
  prim : List Vert
  buffer : List Vert
  quads : List (Nat × List Vert)
deriving DecidableEq, Repr

def initMachine : GLMachine :=
  { boundTex := 0, curU := 0, curV := 0, prim := [], buffer := [], quads := [] }

/-- One step of the abstract GL machine. -/
def glStep (m : GLMachine) : GLCall → GLMachine
  | .bindTexture i => { m with boundTex := i }
  | .beginTriangles => { m with prim := [] }
  | .texCoord2f u v => { m with curU := u, curV := v }
  | .vertex2f x y => { m with prim := m.prim ++ [⟨x, y, m.curU, m.curV⟩] }
  | .endPrim => { m with quads := m.quads ++ [(m.boundTex, m.prim)], prim := [] }
  | .bufferData vs => { m with buffer := vs }
  | .drawArraysTriangles first count =>
      { m with quads :=
          m.quads ++ [(m.boundTex, (m.buffer.drop first.toNat).take count.toNat)] }
  | _ => m

def glExec (m : GLMachine) (calls : List GLCall) : GLMachine :=
  calls.foldl glStep m

/-- The textured quads a call trace draws, starting from a fresh machine. -/
def quadsOf (calls : List GLCall) : List (Nat × List Vert) :=
  (glExec initMachine calls).quads

/-! ### Application lifecycle -/

/-- Model of `SDL_AppResult`: `SDL_APP_CONTINUE`, `SDL_APP_SUCCESS`, `SDL_APP_FAILURE`. -/
inductive SDLAppResult where
  | cont
  | success
  | failure
deriving DecidableEq, Repr

/-- Destination rectangle (`SDL_FRect`). -/
structure FRect where
  x : ℚ
  y : ℚ
  w : ℚ
  h : ℚ
deriving DecidableEq, Repr

/-- Model of `struct AppContext` (the window pointer is irrelevant to the claims). -/
structure AppContext where
  gl : GLRenderer
  messageTex : GLTexture
  imageTex : GLTexture
  messageDest : FRect
  app_quit : SDLAppResult
deriving DecidableEq, Repr

/-- The initialization / library calls `SDL_AppInit` makes, in source
order.  `playTrack` records the loop count set on the playback properties
(`MIX_PROP_PLAY_LOOPS_NUMBER`). -/
inductive InitStep where
  | sdlInit
  | ttfInit
  | mixInit
  | createWindow
  | initGL
  | getBasePath
  | openFont
  | renderText
  | createTextTexture
  | closeFont
  | destroyTextSurface
  | loadImage
  | createImageTexture
  | destroyImageSurface
  | createMixerDevice
  | createTrack
  | loadAudio
  | setTrackAudio
  | playTrack (loops : Int)
  | showWindow
deriving DecidableEq, Repr

/-- Outcome of every external library call `SDL_AppInit` makes; the texture
fields are the results of `CreateTextureFromSurface` (failure there is an
id of `0`, which is what the code checks). -/
structure InitEnv where
  sdlInitOk : Bool
  ttfInitOk : Bool
  mixInitOk : Bool
  windowOk : Bool
  initGLOk : Bool
  gl : GLRenderer
  basePathOk : Bool
  fontOk : Bool
  textSurfaceOk : Bool
  messageTex : GLTexture
  imageSurfaceOk : Bool
  imageTex : GLTexture
  mixerOk : Bool
  trackOk : Bool
  musicOk : Bool
deriving DecidableEq, Repr

/-- The full step trace of a successful `SDL_AppInit` run. -/
def fullInitTrace : List InitStep :=
  [.sdlInit, .ttfInit, .mixInit, .createWindow, .initGL, .getBasePath,
   .openFont, .renderText, .createTextTexture, .closeFont, .destroyTextSurface,
   .loadImage, .createImageTexture, .destroyImageSurface,
   .createMixerDevice, .createTrack, .loadAudio, .setTrackAudio,
   .playTrack (-1), .showWindow]

/-- The `AppContext` a successful `SDL_AppInit` builds: the text quad's
destination rectangle is `(0, 0, messageTex.width, messageTex.height)` and
`app_quit` starts as `SDL_APP_CONTINUE`. -/
def initApp (env : InitEnv) : AppContext :=
  { gl := env.gl,
    messageTex := env.messageTex,
    imageTex := env.imageTex,
    messageDest :=
      ⟨0, 0, (env.messageTex.width : ℚ), (env.messageTex.height : ℚ)⟩,
    app_quit := .cont }

/-- Steps of `fullInitTrace` that are library initialization / load /
playback calls (as opposed to cleanup and logging calls). -/
def listedStep : InitStep → Bool
  | .getBasePath => false
  | .closeFont => false
  | .destroyTextSurface => false
  | .destroyImageSurface => false
  | .setTrackAudio => false
  | .showWindow => false
  | _ => true

/-- The fourteen library calls of a successful `SDL_AppInit`, in order. -/
def listedFullSeq : List InitStep :=
  [.sdlInit, .ttfInit, .mixInit, .createWindow, .initGL, .openFont,
   .renderText, .createTextTexture, .loadImage, .createImageTexture,
   .createMixerDevice, .createTrack, .loadAudio, .playTrack (-1)]

/-!
The body of `SDL_AppInit` is a linear chain of checks, each returning
`SDL_APP_FAILURE` when its library call fails.  We model it as a chain of
stage functions, one per check, innermost (latest) first; each stage
records the full call trace up to and including its failing call.
-/

/-- Stage of `SDL_AppInit` from the `MIX_LoadAudio` check on: on success,
play the track (loop count `-1`), show the window, build the context. -/
def runInitMusic (env : InitEnv) :
    SDLAppResult × List InitStep × Option AppContext :=
  if env.musicOk then (.cont, fullInitTrace, some (initApp env))
  else
    (.failure,
     [.sdlInit, .ttfInit, .mixInit, .createWindow, .initGL, .getBasePath,
      .openFont, .renderText, .createTextTexture, .closeFont,
      .destroyTextSurface, .loadImage, .createImageTexture,
      .destroyImageSurface, .createMixerDevice, .createTrack, .loadAudio],
     none)

/-- Stage from the `MIX_CreateTrack` check on. -/
def runInitTrack (env : InitEnv) :
    SDLAppResult × List InitStep × Option AppContext :=
  if env.trackOk then runInitMusic env
  else
    (.failure,
     [.sdlInit, .ttfInit, .mixInit, .createWindow, .initGL, .getBasePath,
      .openFont, .renderText, .createTextTexture, .closeFont,
      .destroyTextSurface, .loadImage, .createImageTexture,
      .destroyImageSurface, .createMixerDevice, .createTrack],
     none)

/-- Stage from the `MIX_CreateMixerDevice` check on. -/
def runInitMixer (env : InitEnv) :
    SDLAppResult × List InitStep × Option AppContext :=
  if env.mixerOk then runInitTrack env
  else
    (.failure,
     [.sdlInit, .ttfInit, .mixInit, .createWindow, .initGL, .getBasePath,
      .openFont, .renderText, .createTextTexture, .closeFont,
      .destroyTextSurface, .loadImage, .createImageTexture,
      .destroyImageSurface, .createMixerDevice],
     none)

/-- Stage from the image-texture id check on (`if (!imageTex.id)`); the
texture creation and surface destruction happen before the check. -/
def runInitImageTex (env : InitEnv) :
    SDLAppResult × List InitStep × Option AppContext :=
  if env.imageTex.id = 0 then
    (.failure,
     [.sdlInit, .ttfInit, .mixInit, .createWindow, .initGL, .getBasePath,
      .openFont, .renderText, .createTextTexture, .closeFont,
      .destroyTextSurface, .loadImage, .createImageTexture,
      .destroyImageSurface],
     none)
  else runInitMixer env

/-- Stage from the `IMG_Load` check on. -/
def runInitImage (env : InitEnv) :
    SDLAppResult × List InitStep × Option AppContext :=
  if env.imageSurfaceOk then runInitImageTex env
  else
    (.failure,
     [.sdlInit, .ttfInit, .mixInit, .createWindow, .initGL, .getBasePath,
      .openFont, .renderText, .createTextTexture, .closeFont,
      .destroyTextSurface, .loadImage],
     none)

/-- Stage from the text-texture id check on (`if (!messageTex.id)`); the
texture creation, font close and surface destruction come first. -/
def runInitTextTex (env : InitEnv) :
    SDLAppResult × List InitStep × Option AppContext :=
  if env.messageTex.id = 0 then
    (.failure,
     [.sdlInit, .ttfInit, .mixInit, .createWindow, .initGL, .getBasePath,
      .openFont, .renderText, .createTextTexture, .closeFont,
      .destroyTextSurface],
     none)
  else runInitImage env

/-- Stage from the `TTF_RenderText_Solid` check on; on failure the source
closes the font before returning. -/
def runInitText (env : InitEnv) :
    SDLAppResult × List InitStep × Option AppContext :=
  if env.textSurfaceOk then runInitTextTex env
  else
    (.failure,
     [.sdlInit, .ttfInit, .mixInit, .createWindow, .initGL, .getBasePath,
      .openFont, .renderText, .closeFont],
     none)

/-- Stage from the `TTF_OpenFont` check on. -/
def runInitFont (env : InitEnv) :
    SDLAppResult × List InitStep × Option AppContext :=
  if env.fontOk then runInitText env
  else
    (.failure,
     [.sdlInit, .ttfInit, .mixInit, .createWindow, .initGL, .getBasePath,
      .openFont],
     none)

/-- Stage from the `SDL_GetBasePath` check on. -/
def runInitBasePath (env : InitEnv) :
    SDLAppResult × List InitStep × Option AppContext :=
  if env.basePathOk then runInitFont env
  else
    (.failure,
     [.sdlInit, .ttfInit, .mixInit, .createWindow, .initGL, .getBasePath],
     none)

/-- Stage from the `InitGL` check on. -/
def runInitGLStage (env : InitEnv) :
    SDLAppResult × List InitStep × Option AppContext :=
  if env.initGLOk then runInitBasePath env
  else
    (.failure, [.sdlInit, .ttfInit, .mixInit, .createWindow, .initGL], none)

/-- Stage from the `SDL_CreateWindow` check on. -/
def runInitWindow (env : InitEnv) :
    SDLAppResult × List InitStep × Option AppContext :=
  if env.windowOk then runInitGLStage env
  else (.failure, [.sdlInit, .ttfInit, .mixInit, .createWindow], none)

/-- Stage from the `MIX_Init` check on. -/
def runInitMix (env : InitEnv) :
    SDLAppResult × List InitStep × Option AppContext :=
  if env.mixInitOk then runInitWindow env
  else (.failure, [.sdlInit, .ttfInit, .mixInit], none)

/-- Stage from the `TTF_Init` check on. -/
def runInitTtf (env : InitEnv) :
    SDLAppResult × List InitStep × Option AppContext :=
  if env.ttfInitOk then runInitMix env
  else (.failure, [.sdlInit, .ttfInit], none)

/-- Model of `SDL_AppInit`: each library call in source order, returning
`SDL_APP_FAILURE` as soon as one fails (after the cleanup call the source
makes on the text-render failure path), and on success the built
`AppContext` with the full trace. -/
def runInit (env : InitEnv) : SDLAppResult × List InitStep × Option AppContext :=
  if env.sdlInitOk then runInitTtf env
  else (.failure, [.sdlInit], none)

/-- All fourteen checked initialization steps succeed. -/
def allOk (env : InitEnv) : Prop :=
  env.sdlInitOk = true ∧ env.ttfInitOk = true ∧ env.mixInitOk = true ∧
  env.windowOk = true ∧ env.initGLOk = true ∧ env.basePathOk = true ∧
  env.fontOk = true ∧ env.textSurfaceOk = true ∧ env.messageTex.id ≠ 0 ∧
  env.imageSurfaceOk = true ∧ env.imageTex.id ≠ 0 ∧
  env.mixerOk = true ∧ env.trackOk = true ∧ env.musicOk = true

instance (env : InitEnv) : Decidable (allOk env) := by
  unfold allOk; infer_instance

/-! ### Events and the per-frame callback -/

/-- An SDL event: either `SDL_EVENT_QUIT` or anything else. -/
inductive SDLEvent where
  | quit
  | other (code : Nat)
deriving DecidableEq, Repr

/-- Model of `SDL_AppEvent`: a quit event latches `app_quit` to `SDL_APP_SUCCESS`;
every event returns `SDL_APP_CONTINUE`. -/
def SDL_AppEvent (app : AppContext) (e : SDLEvent) : AppContext × SDLAppResult :=
  (if e = .quit then { app with app_quit := .success } else app, .cont)

/-- Elapsed seconds: `SDL_GetTicks() / 1000.0f` (ticks in milliseconds). -/
noncomputable def iterTime (ticks : ℕ) : ℝ := (ticks : ℝ) / 1000

/-- Red channel of the animated clear colour: `(sin(t) + 1) * 0.5`. -/
noncomputable def iterRed (ticks : ℕ) : ℝ := (Real.sin (iterTime ticks) + 1) * 0.5

/-- Green channel: `(sin(t / 2) + 1) * 0.5`. -/
noncomputable def iterGreen (ticks : ℕ) : ℝ :=
  (Real.sin (iterTime ticks / 2) + 1) * 0.5

/-- Blue channel: `(sin(t * 2) + 1) * 0.5`. -/
noncomputable def iterBlue (ticks : ℕ) : ℝ :=
  (Real.sin (iterTime ticks * 2) + 1) * 0.5

/-- Model of `SDL_AppIterate` (native branch): begin the frame with the animated
clear colour, draw the image covering the window, draw the text at its
destination rectangle, swap, and return `app_quit`.  `ticks` is the
`SDL_GetTicks()` reading, `(winW, winH)` the window pixel size. -/
noncomputable def SDL_AppIterate (app : AppContext) (ticks : ℕ)
    (winW winH : Int) : List GLCall × SDLAppResult :=
  (BeginFrame winW winH (iterRed ticks) (iterGreen ticks) (iterBlue ticks)
     ++ (DrawTexture app.gl app.imageTex 0 0 (winW : ℚ) (winH : ℚ)).2
     ++ (DrawTexture app.gl app.messageTex app.messageDest.x app.messageDest.y
           app.messageDest.w app.messageDest.h).2
     ++ EndFrame,
   app.app_quit)

/-- Model of `SDL_AppIterate` (Emscripten branch). -/
noncomputable def SDL_AppIterateEm (app : AppContext) (ticks : ℕ)
    (winW winH : Int) : List GLCall × SDLAppResult :=
  (BeginFrameEm app.gl winW winH (iterRed ticks) (iterGreen ticks)
       (iterBlue ticks)
     ++ (DrawTextureEm app.gl app.imageTex 0 0 (winW : ℚ) (winH : ℚ)).2
     ++ (DrawTextureEm app.gl app.messageTex app.messageDest.x
           app.messageDest.y app.messageDest.w app.messageDest.h).2
     ++ EndFrame,
   app.app_quit)

/-- One lifecycle step after init: the event callback on some event, or one
frame of the iterate callback (which never writes the context). -/
inductive LifeStep where
  | ev (e : SDLEvent)
  | iter
deriving DecidableEq, Repr

/-- Context evolution across lifecycle steps. -/
def stepApp (app : AppContext) : LifeStep → AppContext
  | .ev e => (SDL_AppEvent app e).1
  | .iter => app

def runApp (app : AppContext) (steps : List LifeStep) : AppContext :=
  steps.foldl stepApp app

/-- Whether a step list contains a quit event. -/
def hasQuit (steps : List LifeStep) : Bool :=
  steps.any fun s => s = .ev .quit

/-! ### Sample inputs (used by witnesses) -/

def sampleRenderer : GLRenderer :=
  { program := 7, vbo := 3, uResolutionLoc := 0, uTextureLoc := 1,
    aPosLoc := 2, aUVLoc := 3 }

/-- An environment in which every initialization step succeeds. -/
def envOkSample : InitEnv :=
  { sdlInitOk := true, ttfInitOk := true, mixInitOk := true, windowOk := true,
    initGLOk := true, gl := sampleRenderer, basePathOk := true, fontOk := true,
    textSurfaceOk := true, messageTex := ⟨2, 160, 40⟩, imageSurfaceOk := true,
    imageTex := ⟨3, 256, 256⟩, mixerOk := true, trackOk := true,
    musicOk := true }

/-- An environment in which the font fails to open. -/
def envFontFail : InitEnv := { envOkSample with fontOk := false }

/-! ### Helper lemmas -/

/-- Invariant carried through the stages of `runInit`: the stage succeeds
exactly when `ok` holds, its result is `SDL_APP_CONTINUE` or
`SDL_APP_FAILURE`, its call trace has no repeated call and (restricted to
the listed library calls) follows the fixed order, failure produces no
context, and success produces exactly the full trace and `initApp env`. -/
def InitResultOK (env : InitEnv)
    (res : SDLAppResult × List InitStep × Option AppContext) (ok : Prop) :
    Prop :=
  (res.1 = .cont ↔ ok) ∧
  (res.1 = .cont ∨ res.1 = .failure) ∧
  res.2.1.Nodup ∧
  ((res.2.1.filter listedStep).isPrefixOf listedFullSeq = true) ∧
  (res.1 = .failure → res.2.2 = none) ∧
  (res.1 = .cont → res = (.cont, fullInitTrace, some (initApp env)))

theorem initResultOK_congr {env : InitEnv}
    {res : SDLAppResult × List InitStep × Option AppContext} {ok1 ok2 : Prop}
    (h : ok1 ↔ ok2) (hres : InitResultOK env res ok1) :
    InitResultOK env res ok2 := by
  obtain ⟨h1, h2, h3, h4, h5, h6⟩ := hres
  exact ⟨h1.trans h, h2, h3, h4, h5, h6⟩

theorem initResultOK_failure {env : InitEnv} {ok : Prop}
    (trace : List InitStep) (hnd : trace.Nodup)
    (hpre : (trace.filter listedStep).isPrefixOf listedFullSeq = true)
    (hok : ¬ ok) :
    InitResultOK env (.failure, trace, none) ok := by
  refine ⟨?_, ?_, hnd, hpre, ?_, ?_⟩ <;> simp [hok]

theorem runInitMusic_ok (env : InitEnv) :
    InitResultOK env (runInitMusic env) (env.musicOk = true) := by
  unfold runInitMusic
  by_cases h : env.musicOk = true
  · rw [if_pos h]
    exact ⟨by simp [h], Or.inl rfl,
      by show fullInitTrace.Nodup; decide,
      by show (fullInitTrace.filter listedStep).isPrefixOf listedFullSeq = true
         decide,
      by simp, fun _ => rfl⟩
  · rw [if_neg h]
    exact initResultOK_failure _ (by decide) (by decide) h

theorem runInitTrack_ok (env : InitEnv) :
    InitResultOK env (runInitTrack env)
      (env.trackOk = true ∧ env.musicOk = true) := by
  unfold runInitTrack
  by_cases h : env.trackOk = true
  · rw [if_pos h]
    exact initResultOK_congr (by simp [h]) (runInitMusic_ok env)
  · rw [if_neg h]
    exact initResultOK_failure _ (by decide) (by decide) (by simp [h])

theorem runInitMixer_ok (env : InitEnv) :
    InitResultOK env (runInitMixer env)
      (env.mixerOk = true ∧ env.trackOk = true ∧ env.musicOk = true) := by
  unfold runInitMixer
  by_cases h : env.mixerOk = true
  · rw [if_pos h]
    exact initResultOK_congr (by simp [h]) (runInitTrack_ok env)
  · rw [if_neg h]
    exact initResultOK_failure _ (by decide) (by decide) (by simp [h])

theorem runInitImageTex_ok (env : InitEnv) :
    InitResultOK env (runInitImageTex env)
      (env.imageTex.id ≠ 0 ∧ env.mixerOk = true ∧ env.trackOk = true ∧
       env.musicOk = true) := by
  unfold runInitImageTex
  by_cases h : env.imageTex.id = 0
  · rw [if_pos h]
    exact initResultOK_failure _ (by decide) (by decide) (by simp [h])
  · rw [if_neg h]
    exact initResultOK_congr (by simp [h]) (runInitMixer_ok env)

theorem runInitImage_ok (env : InitEnv) :
    InitResultOK env (runInitImage env)
      (env.imageSurfaceOk = true ∧ env.imageTex.id ≠ 0 ∧
       env.mixerOk = true ∧ env.trackOk = true ∧ env.musicOk = true) := by
  unfold runInitImage
  by_cases h : env.imageSurfaceOk = true
  · rw [if_pos h]
    exact initResultOK_congr (by simp [h]) (runInitImageTex_ok env)
  · rw [if_neg h]
    exact initResultOK_failure _ (by decide) (by decide) (by simp [h])

theorem runInitTextTex_ok (env : InitEnv) :
    InitResultOK env (runInitTextTex env)
      (env.messageTex.id ≠ 0 ∧ env.imageSurfaceOk = true ∧
       env.imageTex.id ≠ 0 ∧ env.mixerOk = true ∧ env.trackOk = true ∧
       env.musicOk = true) := by
  unfold runInitTextTex
  by_cases h : env.messageTex.id = 0
  · rw [if_pos h]
    exact initResultOK_failure _ (by decide) (by decide) (by simp [h])
  · rw [if_neg h]
    exact initResultOK_congr (by simp [h]) (runInitImage_ok env)

theorem runInitText_ok (env : InitEnv) :
    InitResultOK env (runInitText env)
      (env.textSurfaceOk = true ∧ env.messageTex.id ≠ 0 ∧
       env.imageSurfaceOk = true ∧ env.imageTex.id ≠ 0 ∧
       env.mixerOk = true ∧ env.trackOk = true ∧ env.musicOk = true) := by
  unfold runInitText
  by_cases h : env.textSurfaceOk = true
  · rw [if_pos h]
    exact initResultOK_congr (by simp [h]) (runInitTextTex_ok env)
  · rw [if_neg h]
    exact initResultOK_failure _ (by decide) (by decide) (by simp [h])

theorem runInitFont_ok (env : InitEnv) :
    InitResultOK env (runInitFont env)
      (env.fontOk = true ∧ env.textSurfaceOk = true ∧
       env.messageTex.id ≠ 0 ∧ env.imageSurfaceOk = true ∧
       env.imageTex.id ≠ 0 ∧ env.mixerOk = true ∧ env.trackOk = true ∧
       env.musicOk = true) := by
  unfold runInitFont
  by_cases h : env.fontOk = true
  · rw [if_pos h]
    exact initResultOK_congr (by simp [h]) (runInitText_ok env)
  · rw [if_neg h]
    exact initResultOK_failure _ (by decide) (by decide) (by simp [h])

theorem runInitBasePath_ok (env : InitEnv) :
    InitResultOK env (runInitBasePath env)
      (env.basePathOk = true ∧ env.fontOk = true ∧
       env.textSurfaceOk = true ∧ env.messageTex.id ≠ 0 ∧
       env.imageSurfaceOk = true ∧ env.imageTex.id ≠ 0 ∧
       env.mixerOk = true ∧ env.trackOk = true ∧ env.musicOk = true) := by
  unfold runInitBasePath
  by_cases h : env.basePathOk = true
  · rw [if_pos h]
    exact initResultOK_congr (by simp [h]) (runInitFont_ok env)
  · rw [if_neg h]
    exact initResultOK_failure _ (by decide) (by decide) (by simp [h])

theorem runInitGLStage_ok (env : InitEnv) :
    InitResultOK env (runInitGLStage env)
      (env.initGLOk = true ∧ env.basePathOk = true ∧ env.fontOk = true ∧
       env.textSurfaceOk = true ∧ env.messageTex.id ≠ 0 ∧
       env.imageSurfaceOk = true ∧ env.imageTex.id ≠ 0 ∧
       env.mixerOk = true ∧ env.trackOk = true ∧ env.musicOk = true) := by
  unfold runInitGLStage
  by_cases h : env.initGLOk = true
  · rw [if_pos h]
    exact initResultOK_congr (by simp [h]) (runInitBasePath_ok env)
  · rw [if_neg h]
    exact initResultOK_failure _ (by decide) (by decide) (by simp [h])

theorem runInitWindow_ok (env : InitEnv) :
    InitResultOK env (runInitWindow env)
      (env.windowOk = true ∧ env.initGLOk = true ∧ env.basePathOk = true ∧
       env.fontOk = true ∧ env.textSurfaceOk = true ∧
       env.messageTex.id ≠ 0 ∧ env.imageSurfaceOk = true ∧
       env.imageTex.id ≠ 0 ∧ env.mixerOk = true ∧ env.trackOk = true ∧
       env.musicOk = true) := by
  unfold runInitWindow
  by_cases h : env.windowOk = true
  · rw [if_pos h]
    exact initResultOK_congr (by simp [h]) (runInitGLStage_ok env)
  · rw [if_neg h]
    exact initResultOK_failure _ (by decide) (by decide) (by simp [h])

theorem runInitMix_ok (env : InitEnv) :
    InitResultOK env (runInitMix env)
      (env.mixInitOk = true ∧ env.windowOk = true ∧ env.initGLOk = true ∧
       env.basePathOk = true ∧ env.fontOk = true ∧
       env.textSurfaceOk = true ∧ env.messageTex.id ≠ 0 ∧
       env.imageSurfaceOk = true ∧ env.imageTex.id ≠ 0 ∧
       env.mixerOk = true ∧ env.trackOk = true ∧ env.musicOk = true) := by
  unfold runInitMix
  by_cases h : env.mixInitOk = true
  · rw [if_pos h]
    exact initResultOK_congr (by simp [h]) (runInitWindow_ok env)
  · rw [if_neg h]
    exact initResultOK_failure _ (by decide) (by decide) (by simp [h])

theorem runInitTtf_ok (env : InitEnv) :
    InitResultOK env (runInitTtf env)
      (env.ttfInitOk = true ∧ env.mixInitOk = true ∧ env.windowOk = true ∧
       env.initGLOk = true ∧ env.basePathOk = true ∧ env.fontOk = true ∧
       env.textSurfaceOk = true ∧ env.messageTex.id ≠ 0 ∧
       env.imageSurfaceOk = true ∧ env.imageTex.id ≠ 0 ∧
       env.mixerOk = true ∧ env.trackOk = true ∧ env.musicOk = true) := by
  unfold runInitTtf
  by_cases h : env.ttfInitOk = true
  · rw [if_pos h]
    exact initResultOK_congr (by simp [h]) (runInitMix_ok env)
  · rw [if_neg h]
    exact initResultOK_failure _ (by decide) (by decide) (by simp [h])

theorem runInit_ok (env : InitEnv) :
    InitResultOK env (runInit env) (allOk env) := by
  unfold runInit
  by_cases h : env.sdlInitOk = true
  · rw [if_pos h]
    exact initResultOK_congr (by simp [allOk, h]) (runInitTtf_ok env)
  · rw [if_neg h]
    exact initResultOK_failure _ (by decide) (by decide)
      (by simp [allOk, h])

theorem runInit_eq_of_allOk (env : InitEnv) (h : allOk env) :
    runInit env = (.cont, fullInitTrace, some (initApp env)) :=
  (runInit_ok env).2.2.2.2.2 ((runInit_ok env).1.mpr h)

theorem runInit_fst_eq_cont_iff (env : InitEnv) :
    (runInit env).1 = .cont ↔ allOk env :=
  (runInit_ok env).1

theorem runInit_trace_nodup (env : InitEnv) : (runInit env).2.1.Nodup :=
  (runInit_ok env).2.2.1

theorem stepApp_quit (app : AppContext) (s : LifeStep) :
    (stepApp app s).app_quit =
      if s = .ev .quit then .success else app.app_quit := by
  cases s with
  | ev e =>
    cases e <;> simp [stepApp, SDL_AppEvent]
  | iter => simp [stepApp]

theorem runApp_quit_eq (app : AppContext) (steps : List LifeStep) :
    (runApp app steps).app_quit =
      if hasQuit steps then .success else app.app_quit := by
  induction steps generalizing app with
  | nil => simp [runApp, hasQuit]
  | cons s rest ih =>
    have hstep : runApp app (s :: rest) = runApp (stepApp app s) rest := rfl
    by_cases hq : s = .ev .quit
    · subst hq
      have hquit : hasQuit (LifeStep.ev .quit :: rest) = true := by
        simp [hasQuit]
      rw [hstep, ih, hquit, stepApp_quit]
      simp
    · have hsame : (stepApp app s).app_quit = app.app_quit := by
        rw [stepApp_quit, if_neg hq]
      have htail : hasQuit (s :: rest) = hasQuit rest := by
        simp [hasQuit, hq]
      rw [hstep, ih, htail, hsame]

/-! ### Claims -/

/-- C2: the desktop immediate-mode branch and the Emscripten shader branch
of `DrawTexture` draw the same quads: for every renderer, texture and
rectangle the two traces produce identical quad lists, and when the texture
id is non-zero that common list is exactly one quad with the six vertices
`(x,y), (x+w,y), (x+w,y+h), (x,y), (x+w,y+h), (x,y+h)` carrying texture
coordinates `(0,0), (1,0), (1,1), (0,0), (1,1), (0,1)`. -/
theorem drawTexture_branches_equiv (renderer : GLRenderer) (tex : GLTexture)
    (x y w h : ℚ) :
    quadsOf (DrawTextureEm renderer tex x y w h).2 =
      quadsOf (DrawTexture renderer tex x y w h).2 ∧
    (tex.id ≠ 0 →
      quadsOf (DrawTexture renderer tex x y w h).2 =
        [(tex.id,
          [⟨x, y, 0, 0⟩, ⟨x + w, y, 1, 0⟩, ⟨x + w, y + h, 1, 1⟩,
           ⟨x, y, 0, 0⟩, ⟨x + w, y + h, 1, 1⟩, ⟨x, y + h, 0, 1⟩])]) := by
  by_cases hid : tex.id = 0
  · simp [DrawTexture, DrawTextureEm, hid]
  · constructor
    · simp [DrawTexture, DrawTextureEm, hid, quadsOf, glExec, glStep,
        initMachine, quadVerts, List.take]
    · intro _
      simp [DrawTexture, hid, quadsOf, glExec, glStep, initMachine]

/-- Closed witness for C2 at a concrete renderer, texture and rectangle. -/
theorem drawTexture_branches_equiv_witness :
    quadsOf (DrawTexture sampleRenderer ⟨5, 16, 16⟩ 1 2 10 20).2 =
      [((5 : Nat),
        [⟨1, 2, 0, 0⟩, ⟨1 + 10, 2, 1, 0⟩, ⟨1 + 10, 2 + 20, 1, 1⟩,
         ⟨1, 2, 0, 0⟩, ⟨1 + 10, 2 + 20, 1, 1⟩, ⟨1, 2 + 20, 0, 1⟩])] :=
  (drawTexture_branches_equiv sampleRenderer ⟨5, 16, 16⟩ 1 2 10 20).2
    (by decide)

/-- C9: calling `DrawTexture` (either branch) with an id-0 texture is a
no-op: the renderer state is returned unchanged, no GL call is issued, and
the abstract GL state is left unchanged. -/
theorem drawTexture_zero_id_noop (renderer : GLRenderer) (tex : GLTexture)
    (x y w h : ℚ) (hid : tex.id = 0) :
    DrawTexture renderer tex x y w h = (renderer, []) ∧
    DrawTextureEm renderer tex x y w h = (renderer, []) ∧
    (∀ m : GLMachine, glExec m (DrawTexture renderer tex x y w h).2 = m) ∧
    (∀ m : GLMachine, glExec m (DrawTextureEm renderer tex x y w h).2 = m) := by
  refine ⟨?_, ?_, ?_, ?_⟩ <;>
    simp [DrawTexture, DrawTextureEm, glExec, hid]

/-- Closed witness for C9 at a concrete renderer and id-0 texture. -/
theorem drawTexture_zero_id_noop_witness :
    DrawTexture sampleRenderer ⟨0, 8, 8⟩ 1 2 3 4 = (sampleRenderer, []) ∧
    DrawTextureEm sampleRenderer ⟨0, 8, 8⟩ 1 2 3 4 = (sampleRenderer, []) ∧
    (∀ m : GLMachine,
      glExec m (DrawTexture sampleRenderer ⟨0, 8, 8⟩ 1 2 3 4).2 = m) ∧
    (∀ m : GLMachine,
      glExec m (DrawTextureEm sampleRenderer ⟨0, 8, 8⟩ 1 2 3 4).2 = m) :=
  drawTexture_zero_id_noop sampleRenderer ⟨0, 8, 8⟩ 1 2 3 4 (by decide)

/-- C10: `DestroyTexture` is idempotent: after one call the id field is
`0`, and a second call on the result is a no-op (returns the same state and
issues no `glDeleteTextures` call), so two consecutive calls leave the same
state as one. -/
theorem destroyTexture_idempotent (tex : GLTexture) :
    (DestroyTexture tex).1.id = 0 ∧
    DestroyTexture (DestroyTexture tex).1 = ((DestroyTexture tex).1, []) := by
  by_cases hid : tex.id = 0 <;> simp [DestroyTexture, hid]

/-- C3: when any checked initialization step fails, `SDL_AppInit` returns
`SDL_APP_FAILURE` and builds no application context, and there is no retry:
every library call appears at most once in the trace of any run. -/
theorem init_failure_single_shot (env : InitEnv) :
    (¬ allOk env → (runInit env).1 = .failure ∧ (runInit env).2.2 = none) ∧
    (∀ s : InitStep, ((runInit env).2.1).count s ≤ 1) := by
  obtain ⟨h1, h2, h3, h4, h5, h6⟩ := runInit_ok env
  refine ⟨fun hna => ?_, fun s => List.nodup_iff_count_le_one.mp h3 s⟩
  have hfail : (runInit env).1 = .failure := by
    rcases h2 with hc | hf
    · exact absurd (h1.mp hc) hna
    · exact hf
  exact ⟨hfail, h5 hfail⟩

/-- Closed witness for C3: with every step succeeding except `TTF_OpenFont`,
initialization fails and produces no context. -/
theorem init_failure_single_shot_witness :
    (runInit envFontFail).1 = .failure ∧ (runInit envFontFail).2.2 = none :=
  (init_failure_single_shot envFontFail).1 (by decide)

/-- C5: a successful `SDL_AppInit` starts playback of the loaded music
track with the loop-count property (`MIX_PROP_PLAY_LOOPS_NUMBER`) set to
`-1`, i.e. infinite looping. -/
theorem init_plays_track_looping (env : InitEnv) (h : allOk env) :
    InitStep.playTrack (-1) ∈ (runInit env).2.1 := by
  rw [runInit_eq_of_allOk env h]
  show InitStep.playTrack (-1) ∈ fullInitTrace
  decide

/-- Closed witness for C5 in the all-success environment. -/
theorem init_plays_track_looping_witness :
    InitStep.playTrack (-1) ∈ (runInit envOkSample).2.1 :=
  init_plays_track_looping envOkSample (by decide)

/-- C6: the library calls of `SDL_AppInit` form one fixed sequence: in any
run the listed calls made are a prefix of the fixed order (so no step is
reordered, and a step runs only when all earlier steps succeeded), and on a
fully successful run they are exactly the fixed sequence SDL_Init, TTF_Init,
MIX_Init, window creation, GL initialization, font open, text render,
text-texture creation, image load, image-texture creation, mixer device
creation, track creation, music load, playback start. -/
theorem init_fixed_sequence (env : InitEnv) :
    (((runInit env).2.1.filter listedStep).isPrefixOf listedFullSeq = true) ∧
    (allOk env → (runInit env).2.1.filter listedStep = listedFullSeq) := by
  refine ⟨(runInit_ok env).2.2.2.1, fun h => ?_⟩
  rw [runInit_eq_of_allOk env h]
  show fullInitTrace.filter listedStep = listedFullSeq
  decide

/-- Closed witness for C6 in the all-success environment. -/
theorem init_fixed_sequence_witness :
    (runInit envOkSample).2.1.filter listedStep = listedFullSeq :=
  (init_fixed_sequence envOkSample).2 (by decide)

/-- C1: on every frame after a successful `SDL_AppInit`, `SDL_AppIterate`
draws exactly two textured quads, in order: first the image texture at
`(0, 0)` with the window's pixel size, then the text texture at the
destination rectangle stored in the context, whose origin is `(0, 0)` and
whose size is the text texture's pixel size.  This holds in both platform
branches. -/
theorem iterate_draws_two_quads (env : InitEnv) (app : AppContext)
    (ticks : ℕ) (winW winH : Int)
    (h : runInit env = (.cont, fullInitTrace, some app)) :
    quadsOf (SDL_AppIterate app ticks winW winH).1 =
      [(app.imageTex.id, quadVerts 0 0 (winW : ℚ) (winH : ℚ)),
       (app.messageTex.id,
        quadVerts 0 0 (app.messageTex.width : ℚ)
          (app.messageTex.height : ℚ))] ∧
    quadsOf (SDL_AppIterateEm app ticks winW winH).1 =
      [(app.imageTex.id, quadVerts 0 0 (winW : ℚ) (winH : ℚ)),
       (app.messageTex.id,
        quadVerts 0 0 (app.messageTex.width : ℚ)
          (app.messageTex.height : ℚ))] := by
  have hcont : (runInit env).1 = .cont := by rw [h]
  have hok : allOk env := (runInit_fst_eq_cont_iff env).mp hcont
  have heq := runInit_eq_of_allOk env hok
  rw [heq] at h
  have happ : app = initApp env := by
    have h22 := congrArg (fun r => r.2.2) h
    simpa using h22.symm
  subst happ
  obtain ⟨-, -, -, -, -, -, -, -, hmid, -, hiid, -, -, -⟩ := hok
  constructor
  · simp [SDL_AppIterate, BeginFrame, DrawTexture, EndFrame, initApp,
      hmid, hiid, quadsOf, glExec, glStep, initMachine, quadVerts]
  · simp [SDL_AppIterateEm, BeginFrameEm, DrawTextureEm, EndFrame, initApp,
      hmid, hiid, quadsOf, glExec, glStep, initMachine, quadVerts,
      List.take]

/-- Closed witness for C1 at the all-success environment, tick 0 and a
400x300 pixel window. -/
theorem iterate_draws_two_quads_witness :
    quadsOf (SDL_AppIterate (initApp envOkSample) 0 400 300).1 =
      [((initApp envOkSample).imageTex.id,
        quadVerts 0 0 ((400 : Int) : ℚ) ((300 : Int) : ℚ)),
       ((initApp envOkSample).messageTex.id,
        quadVerts 0 0 ((initApp envOkSample).messageTex.width : ℚ)
          ((initApp envOkSample).messageTex.height : ℚ))] ∧
    quadsOf (SDL_AppIterateEm (initApp envOkSample) 0 400 300).1 =
      [((initApp envOkSample).imageTex.id,
        quadVerts 0 0 ((400 : Int) : ℚ) ((300 : Int) : ℚ)),
       ((initApp envOkSample).messageTex.id,
        quadVerts 0 0 ((initApp envOkSample).messageTex.width : ℚ)
          ((initApp envOkSample).messageTex.height : ℚ))] :=
  iterate_draws_two_quads envOkSample (initApp envOkSample) 0 400 300
    (by decide)

/-- C4: the clear colour is the claimed function of elapsed seconds
`t = SDL_GetTicks() / 1000`: red `(sin t + 1) / 2`, green
`(sin (t / 2) + 1) / 2`, blue `(sin (2 t) + 1) / 2`; every channel lies in
`[0, 1]`; each frame clears with exactly these channels and alpha `1`; and
the colour varies with `t` (it is not constant). -/
theorem clear_color_animates :
    (∀ ticks : ℕ,
      iterRed ticks = (Real.sin (iterTime ticks) + 1) / 2 ∧
      iterGreen ticks = (Real.sin (iterTime ticks / 2) + 1) / 2 ∧
      iterBlue ticks = (Real.sin (iterTime ticks * 2) + 1) / 2 ∧
      iterRed ticks ∈ Set.Icc (0 : ℝ) 1 ∧
      iterGreen ticks ∈ Set.Icc (0 : ℝ) 1 ∧
      iterBlue ticks ∈ Set.Icc (0 : ℝ) 1) ∧
    (∀ (app : AppContext) (ticks : ℕ) (winW winH : Int),
      GLCall.clearColorCall (iterRed ticks) (iterGreen ticks)
          (iterBlue ticks) 1 ∈ (SDL_AppIterate app ticks winW winH).1) ∧
    (∃ t1 t2 : ℕ, iterRed t1 ≠ iterRed t2) := by
  refine ⟨fun ticks => ?_, fun app ticks winW winH => ?_, 0, 1000, ?_⟩
  · have b1 := Real.neg_one_le_sin (iterTime ticks)
    have b2 := Real.sin_le_one (iterTime ticks)
    have b3 := Real.neg_one_le_sin (iterTime ticks / 2)
    have b4 := Real.sin_le_one (iterTime ticks / 2)
    have b5 := Real.neg_one_le_sin (iterTime ticks * 2)
    have b6 := Real.sin_le_one (iterTime ticks * 2)
    refine ⟨by unfold iterRed; ring, by unfold iterGreen; ring,
      by unfold iterBlue; ring,
      ⟨by unfold iterRed; linarith, by unfold iterRed; linarith⟩,
      ⟨by unfold iterGreen; linarith, by unfold iterGreen; linarith⟩,
      ⟨by unfold iterBlue; linarith, by unfold iterBlue; linarith⟩⟩
  · simp [SDL_AppIterate, BeginFrame, DrawTexture, EndFrame]
  · have h0 : iterRed 0 = 1 / 2 := by
      unfold iterRed iterTime
      norm_num
    have hsin : 0 < Real.sin (iterTime 1000) := by
      have ht : iterTime 1000 = 1 := by unfold iterTime; norm_num
      rw [ht]
      exact Real.sin_pos_of_pos_of_lt_pi one_pos
        (by linarith [Real.pi_gt_three])
    have hlt : iterRed 0 < iterRed 1000 := by
      rw [h0]; unfold iterRed; linarith
    exact ne_of_lt hlt

/-- C7: the shader/VBO pipeline belongs only to the Emscripten build: no
call of the native `InitGL`, `BeginFrame`, `DrawTexture` or `EndFrame`
trace is a shader or VBO call, the native path instead uses an ortho
projection and an immediate-mode `glBegin(GL_TRIANGLES)` primitive, while
the Emscripten `InitGL` creates the textured-quad shader program and the
Emscripten `DrawTexture` draws through `glDrawArrays`. -/
theorem shader_path_emscripten_only (winW winH : Int) (r g b : ℝ)
    (renderer : GLRenderer) (tex : GLTexture) (x y w h : ℚ) :
    ((InitGLCalls winW winH).all fun c => !(isShaderOrVBOCall c)) = true ∧
    ((BeginFrame winW winH r g b).all fun c => !(isShaderOrVBOCall c))
      = true ∧
    (((DrawTexture renderer tex x y w h).2).all
      fun c => !(isShaderOrVBOCall c)) = true ∧
    (EndFrame.all fun c => !(isShaderOrVBOCall c)) = true ∧
    GLCall.ortho winW winH ∈ InitGLCalls winW winH ∧
    (tex.id ≠ 0 →
      GLCall.beginTriangles ∈ (DrawTexture renderer tex x y w h).2) ∧
    GLCall.createTexturedQuadProgram ∈ InitGLEmCalls renderer winW winH ∧
    (tex.id ≠ 0 →
      GLCall.drawArraysTriangles 0 6
        ∈ (DrawTextureEm renderer tex x y w h).2) := by
  refine ⟨?_, ?_, ?_, ?_, ?_, fun hid => ?_, ?_, fun hid => ?_⟩
  · simp [InitGLCalls, isShaderOrVBOCall]
  · simp [BeginFrame, isShaderOrVBOCall]
  · by_cases hid : tex.id = 0 <;>
      simp [DrawTexture, hid, isShaderOrVBOCall]
  · simp [EndFrame, isShaderOrVBOCall]
  · simp [InitGLCalls]
  · simp [DrawTexture, hid]
  · simp [InitGLEmCalls]
  · simp [DrawTextureEm, hid]

/-- Closed witness for C7: the native draw of a live texture uses the
immediate-mode primitive, the Emscripten draw uses the vertex-array call. -/
theorem shader_path_emscripten_only_witness :
    GLCall.beginTriangles
      ∈ (DrawTexture sampleRenderer ⟨4, 8, 8⟩ 0 0 2 2).2 ∧
    GLCall.drawArraysTriangles 0 6
      ∈ (DrawTextureEm sampleRenderer ⟨4, 8, 8⟩ 0 0 2 2).2 :=
  ⟨(shader_path_emscripten_only 400 300 0 0 0 sampleRenderer ⟨4, 8, 8⟩
      0 0 2 2).2.2.2.2.2.1 (by decide),
   (shader_path_emscripten_only 400 300 0 0 0 sampleRenderer ⟨4, 8, 8⟩
      0 0 2 2).2.2.2.2.2.2.2 (by decide)⟩

/-- C8: `SDL_AppEvent` returns `SDL_APP_CONTINUE` on every event; a quit
event latches `app_quit` to `SDL_APP_SUCCESS` while any other event leaves
the context unchanged; `SDL_AppIterate` returns `app_quit` after rendering
a frame whose GL trace does not depend on `app_quit` (the frame is fully
rendered even when quitting); across any run started with
`app_quit = SDL_APP_CONTINUE` the iterate result is `SDL_APP_SUCCESS`
exactly when a quit event has occurred, and once latched `app_quit` stays
`SDL_APP_SUCCESS`. -/
theorem event_quit_latching :
    (∀ (app : AppContext) (e : SDLEvent), (SDL_AppEvent app e).2 = .cont) ∧
    (∀ app : AppContext,
      (SDL_AppEvent app .quit).1.app_quit = .success) ∧
    (∀ (app : AppContext) (e : SDLEvent), e ≠ .quit →
      (SDL_AppEvent app e).1 = app) ∧
    (∀ (app : AppContext) (ticks : ℕ) (winW winH : Int),
      (SDL_AppIterate app ticks winW winH).2 = app.app_quit) ∧
    (∀ (app : AppContext) (q : SDLAppResult) (ticks : ℕ) (winW winH : Int),
      (SDL_AppIterate { app with app_quit := q } ticks winW winH).1 =
        (SDL_AppIterate app ticks winW winH).1) ∧
    (∀ (app : AppContext) (steps : List LifeStep), app.app_quit = .cont →
      ((runApp app steps).app_quit = .success ↔ hasQuit steps = true)) ∧
    (∀ (app : AppContext) (steps : List LifeStep),
      app.app_quit = .success →
      (runApp app steps).app_quit = .success) := by
  refine ⟨fun app e => rfl, fun app => by simp [SDL_AppEvent],
    fun app e he => by simp [SDL_AppEvent, he],
    fun app ticks winW winH => rfl,
    fun app q ticks winW winH => rfl,
    fun app steps h => ?_, fun app steps h => ?_⟩
  · rw [runApp_quit_eq]
    by_cases hq : hasQuit steps <;> simp [hq, h]
  · rw [runApp_quit_eq]
    by_cases hq : hasQuit steps <;> simp [hq, h]

/-- Closed witness for C8: a non-quit event leaves the context unchanged,
a run containing a quit event ends latched, and a latched context stays
latched across a further frame. -/
theorem event_quit_latching_witness :
    (SDL_AppEvent (initApp envOkSample) (.other 3)).1 =
      initApp envOkSample ∧
    ((runApp (initApp envOkSample)
        [.iter, .ev .quit, .iter]).app_quit = .success ↔
      hasQuit [.iter, .ev .quit, .iter] = true) ∧
    (runApp { initApp envOkSample with app_quit := .success }
        [.iter]).app_quit = .success :=
  ⟨event_quit_latching.2.2.1 (initApp envOkSample) (.other 3) (by decide),
   event_quit_latching.2.2.2.2.2.1 (initApp envOkSample)
     [.iter, .ev .quit, .iter] (by decide),
   event_quit_latching.2.2.2.2.2.2
     { initApp envOkSample with app_quit := .success } [.iter] (by decide)⟩

end SDLSample
